import Mathlib

/-!
Shallow embedding of the axerrno crate (src/lib.rs): the canonical error
kind enumeration `AxErrorKind`, the Linux errno space `LinuxError`, the
sign-discriminated encoded error `AxError`, and the conversions between
them. Definitions are translated from the Rust source; `LinuxError` is
generated at build time by the crate and is therefore modelled from the
specification.
-/

/-- The 43 canonical error kinds of `AxErrorKind` in src/lib.rs, in source
order; the Rust enum is `#[repr(i32)]` with `AddrInUse = 1` and implicit
increments, so the discriminant of each variant is its 1-based position. -/
inductive AxErrorKind where
  | AddrInUse
  | AlreadyConnected
  | AlreadyExists
  | ArgumentListTooLong
  | BadAddress
  | BadFileDescriptor
  | BadState
  | BrokenPipe
  | ConnectionRefused
  | ConnectionReset
  | CrossesDevices
  | DirectoryNotEmpty
  | FilesystemLoop
  | IllegalBytes
  | InProgress
  | Interrupted
  | InvalidData
  | InvalidExecutable
  | InvalidInput
  | Io
  | IsADirectory
  | NameTooLong
  | NoMemory
  | NoSuchDevice
  | NoSuchProcess
  | NotADirectory
  | NotASocket
  | NotATty
  | NotConnected
  | NotFound
  | OperationNotPermitted
  | OperationNotSupported
  | OutOfRange
  | PermissionDenied
  | ReadOnlyFilesystem
  | ResourceBusy
  | StorageFull
  | TimedOut
  | TooManyOpenFiles
  | UnexpectedEof
  | Unsupported
  | WouldBlock
  | WriteZero
  deriving DecidableEq, Repr

/-- Discriminant of each variant (`AxErrorKind::code`, i.e. `self as i32`):
`AddrInUse = 1` and each later variant is one more than the previous. -/
def AxErrorKind.code : AxErrorKind → Int
  | .AddrInUse => 1
  | .AlreadyConnected => 2
  | .AlreadyExists => 3
  | .ArgumentListTooLong => 4
  | .BadAddress => 5
  | .BadFileDescriptor => 6
  | .BadState => 7
  | .BrokenPipe => 8
  | .ConnectionRefused => 9
  | .ConnectionReset => 10
  | .CrossesDevices => 11
  | .DirectoryNotEmpty => 12
  | .FilesystemLoop => 13
  | .IllegalBytes => 14
  | .InProgress => 15
  | .Interrupted => 16
  | .InvalidData => 17
  | .InvalidExecutable => 18
  | .InvalidInput => 19
  | .Io => 20
  | .IsADirectory => 21
  | .NameTooLong => 22
  | .NoMemory => 23
  | .NoSuchDevice => 24
  | .NoSuchProcess => 25
  | .NotADirectory => 26
  | .NotASocket => 27
  | .NotATty => 28
  | .NotConnected => 29
  | .NotFound => 30
  | .OperationNotPermitted => 31
  | .OperationNotSupported => 32
  | .OutOfRange => 33
  | .PermissionDenied => 34
  | .ReadOnlyFilesystem => 35
  | .ResourceBusy => 36
  | .StorageFull => 37
  | .TimedOut => 38
  | .TooManyOpenFiles => 39
  | .UnexpectedEof => 40
  | .Unsupported => 41
  | .WouldBlock => 42
  | .WriteZero => 43

/-- All variants of `AxErrorKind` in declaration order. -/
def AxErrorKind.all : List AxErrorKind :=
  [.AddrInUse, .AlreadyConnected, .AlreadyExists, .ArgumentListTooLong,
   .BadAddress, .BadFileDescriptor, .BadState, .BrokenPipe,
   .ConnectionRefused, .ConnectionReset, .CrossesDevices,
   .DirectoryNotEmpty, .FilesystemLoop, .IllegalBytes, .InProgress,
   .Interrupted, .InvalidData, .InvalidExecutable, .InvalidInput, .Io,
   .IsADirectory, .NameTooLong, .NoMemory, .NoSuchDevice, .NoSuchProcess,
   .NotADirectory, .NotASocket, .NotATty, .NotConnected, .NotFound,
   .OperationNotPermitted, .OperationNotSupported, .OutOfRange,
   .PermissionDenied, .ReadOnlyFilesystem, .ResourceBusy, .StorageFull,
   .TimedOut, .TooManyOpenFiles, .UnexpectedEof, .Unsupported,
   .WouldBlock, .WriteZero]

/-- `AxErrorKind::COUNT` from `strum::EnumCount`: the number of variants. -/
def AxErrorKind.COUNT : Nat := 43

/-- The variant whose discriminant equals `c`, if any. This models the
`unsafe transmute::<i32, AxErrorKind>` used by the source at in-range
values: reinterpreting an in-range integer yields exactly the variant
with that discriminant. -/
def AxErrorKind.ofCode (c : Int) : Option AxErrorKind :=
  AxErrorKind.all.find? (fun k => k.code == c)

/-- `TryFrom<i32> for AxErrorKind`: accept `value` iff
`value > 0 && value <= COUNT as i32`, then reinterpret the discriminant;
otherwise return the rejected integer. -/
def AxErrorKind.tryFromInt (value : Int) : Except Int AxErrorKind :=
  if 0 < value ∧ value ≤ (AxErrorKind.COUNT : Int) then
    match AxErrorKind.ofCode value with
    | some k => .ok k
    | none => .error value
  else
    .error value

/-- Modelled from the spec: the set of valid Linux errno discriminants.
The generated `linux_errno.rs` enum is not part of src/; the spec states
that `LinuxErrno` is a closed enumeration mirroring the platform errno.h
values exactly (EPERM = 1, ENOENT = 2, ...), with about 130 members. On
the asm-generic Linux ABI the defined errno values are 1..=40 and
42..=133 (the value 41 is the historical EWOULDBLOCK alias of EAGAIN and
has no variant of its own). -/
def isValidLinuxCode (c : Int) : Bool :=
  decide ((1 ≤ c ∧ c ≤ 40) ∨ (42 ≤ c ∧ c ≤ 133))

/-- Modelled from the spec: a Linux errno value, carried as its positive
discriminant together with validity. The generated Rust enum is
`#[repr(i32)]`-like; `code` is the discriminant. -/
structure LinuxError where
  code : Int
  valid : isValidLinuxCode code = true

instance : DecidableEq LinuxError := fun a b =>
  if h : a.code = b.code then
    isTrue (by cases a; cases b; cases h; rfl)
  else
    isFalse (fun he => h (congrArg LinuxError.code he))

/-- Modelled from the spec: `TryFrom<i32> for LinuxError` of the generated
code validates that the integer is a defined errno discriminant and
otherwise returns the rejected integer. -/
def LinuxError.tryFromInt (value : Int) : Except Int LinuxError :=
  if h : isValidLinuxCode value = true then .ok ⟨value, h⟩ else .error value

/-- The Linux errno value with discriminant `c`, if `c` is valid; models
the `unsafe transmute::<i32, LinuxError>` of the source at valid codes. -/
def LinuxError.ofCode (c : Int) : Option LinuxError :=
  if h : isValidLinuxCode c = true then some ⟨c, h⟩ else none

def LinuxError.EPERM : LinuxError := ⟨1, by decide⟩
def LinuxError.ENOENT : LinuxError := ⟨2, by decide⟩
def LinuxError.ESRCH : LinuxError := ⟨3, by decide⟩
def LinuxError.EINTR : LinuxError := ⟨4, by decide⟩
/-- The errno the source calls EIO (5); the name is case-adjusted here. -/
def LinuxError.Eio : LinuxError := ⟨5, by decide⟩
def LinuxError.E2BIG : LinuxError := ⟨7, by decide⟩
def LinuxError.ENOEXEC : LinuxError := ⟨8, by decide⟩
def LinuxError.EBADF : LinuxError := ⟨9, by decide⟩
def LinuxError.ECHILD : LinuxError := ⟨10, by decide⟩
def LinuxError.EAGAIN : LinuxError := ⟨11, by decide⟩
def LinuxError.ENOMEM : LinuxError := ⟨12, by decide⟩
def LinuxError.EACCES : LinuxError := ⟨13, by decide⟩
def LinuxError.EFAULT : LinuxError := ⟨14, by decide⟩
def LinuxError.EBUSY : LinuxError := ⟨16, by decide⟩
def LinuxError.EEXIST : LinuxError := ⟨17, by decide⟩
def LinuxError.EXDEV : LinuxError := ⟨18, by decide⟩
def LinuxError.ENODEV : LinuxError := ⟨19, by decide⟩
def LinuxError.ENOTDIR : LinuxError := ⟨20, by decide⟩
def LinuxError.EISDIR : LinuxError := ⟨21, by decide⟩
def LinuxError.EINVAL : LinuxError := ⟨22, by decide⟩
def LinuxError.EMFILE : LinuxError := ⟨24, by decide⟩
def LinuxError.ENOTTY : LinuxError := ⟨25, by decide⟩
def LinuxError.ENOSPC : LinuxError := ⟨28, by decide⟩
def LinuxError.EROFS : LinuxError := ⟨30, by decide⟩
def LinuxError.EPIPE : LinuxError := ⟨32, by decide⟩
def LinuxError.EDOM : LinuxError := ⟨33, by decide⟩
def LinuxError.ERANGE : LinuxError := ⟨34, by decide⟩
def LinuxError.ENAMETOOLONG : LinuxError := ⟨36, by decide⟩
def LinuxError.ENOSYS : LinuxError := ⟨38, by decide⟩
def LinuxError.ENOTEMPTY : LinuxError := ⟨39, by decide⟩
def LinuxError.ELOOP : LinuxError := ⟨40, by decide⟩
def LinuxError.EILSEQ : LinuxError := ⟨84, by decide⟩
def LinuxError.ENOTSOCK : LinuxError := ⟨88, by decide⟩
def LinuxError.EOPNOTSUPP : LinuxError := ⟨95, by decide⟩
def LinuxError.EADDRINUSE : LinuxError := ⟨98, by decide⟩
def LinuxError.ECONNRESET : LinuxError := ⟨104, by decide⟩
def LinuxError.EISCONN : LinuxError := ⟨106, by decide⟩
def LinuxError.ENOTCONN : LinuxError := ⟨107, by decide⟩
def LinuxError.ETIMEDOUT : LinuxError := ⟨110, by decide⟩
def LinuxError.ECONNREFUSED : LinuxError := ⟨111, by decide⟩
def LinuxError.EINPROGRESS : LinuxError := ⟨115, by decide⟩

/-- `From<AxErrorKind> for LinuxError`: the total canonical-to-Linux table
of src/lib.rs (many-to-one: for example both `BadAddress` and `BadState`
map to `EFAULT`). -/
def AxErrorKind.toLinux : AxErrorKind → LinuxError
  | .AddrInUse => .EADDRINUSE
  | .AlreadyConnected => .EISCONN
  | .AlreadyExists => .EEXIST
  | .ArgumentListTooLong => .E2BIG
  | .BadAddress => .EFAULT
  | .BadState => .EFAULT
  | .BadFileDescriptor => .EBADF
  | .BrokenPipe => .EPIPE
  | .ConnectionRefused => .ECONNREFUSED
  | .ConnectionReset => .ECONNRESET
  | .CrossesDevices => .EXDEV
  | .DirectoryNotEmpty => .ENOTEMPTY
  | .FilesystemLoop => .ELOOP
  | .IllegalBytes => .EILSEQ
  | .InProgress => .EINPROGRESS
  | .Interrupted => .EINTR
  | .InvalidExecutable => .ENOEXEC
  | .InvalidInput => .EINVAL
  | .InvalidData => .EINVAL
  | .Io => .Eio
  | .IsADirectory => .EISDIR
  | .NameTooLong => .ENAMETOOLONG
  | .NoMemory => .ENOMEM
  | .NoSuchDevice => .ENODEV
  | .NoSuchProcess => .ESRCH
  | .NotADirectory => .ENOTDIR
  | .NotASocket => .ENOTSOCK
  | .NotATty => .ENOTTY
  | .NotConnected => .ENOTCONN
  | .NotFound => .ENOENT
  | .OperationNotPermitted => .EPERM
  | .OperationNotSupported => .EOPNOTSUPP
  | .OutOfRange => .ERANGE
  | .PermissionDenied => .EACCES
  | .ReadOnlyFilesystem => .EROFS
  | .ResourceBusy => .EBUSY
  | .StorageFull => .ENOSPC
  | .TimedOut => .ETIMEDOUT
  | .TooManyOpenFiles => .EMFILE
  | .UnexpectedEof => .Eio
  | .WriteZero => .Eio
  | .Unsupported => .ENOSYS
  | .WouldBlock => .EAGAIN

/-- The match arms of `TryFrom<LinuxError> for AxErrorKind`, keyed by the
errno discriminant: the variants named in the source match become their
discriminants here (the `LinuxError` enum itself is generated code). The
catch-all arm of the source is the `none` case. -/
def AxErrorKind.fromLinuxTable (c : Int) : Option AxErrorKind :=
  match c with
  | 98 => some .AddrInUse
  | 106 => some .AlreadyConnected
  | 17 => some .AlreadyExists
  | 7 => some .ArgumentListTooLong
  | 14 => some .BadAddress
  | 9 => some .BadFileDescriptor
  | 32 => some .BrokenPipe
  | 111 => some .ConnectionRefused
  | 104 => some .ConnectionReset
  | 18 => some .CrossesDevices
  | 39 => some .DirectoryNotEmpty
  | 40 => some .FilesystemLoop
  | 84 => some .IllegalBytes
  | 115 => some .InProgress
  | 4 => some .Interrupted
  | 8 => some .InvalidExecutable
  | 22 => some .InvalidInput
  | 5 => some .Io
  | 21 => some .IsADirectory
  | 36 => some .NameTooLong
  | 12 => some .NoMemory
  | 19 => some .NoSuchDevice
  | 3 => some .NoSuchProcess
  | 20 => some .NotADirectory
  | 88 => some .NotASocket
  | 25 => some .NotATty
  | 107 => some .NotConnected
  | 2 => some .NotFound
  | 1 => some .OperationNotPermitted
  | 95 => some .OperationNotSupported
  | 34 => some .OutOfRange
  | 13 => some .PermissionDenied
  | 30 => some .ReadOnlyFilesystem
  | 16 => some .ResourceBusy
  | 28 => some .StorageFull
  | 110 => some .TimedOut
  | 24 => some .TooManyOpenFiles
  | 38 => some .Unsupported
  | 11 => some .WouldBlock
  | _ => none

/-- `TryFrom<LinuxError> for AxErrorKind`: the partial Linux-to-canonical
mapping; the catch-all arm returns the original errno as the error. -/
def AxErrorKind.tryFromLinux (e : LinuxError) : Except LinuxError AxErrorKind :=
  match AxErrorKind.fromLinuxTable e.code with
  | some k => .ok k
  | none => .error e

/-- The sign-discriminated encoded error `AxError` of src/lib.rs: a
`#[repr(transparent)]` wrapper around one `i32`. -/
structure AxError where
  code : Int
  deriving DecidableEq, Repr

/-- The decoded view `AxErrorData` of src/lib.rs. -/
inductive AxErrorData where
  | Ax (kind : AxErrorKind)
  | Linux (kind : LinuxError)
  deriving DecidableEq

/-- `AxError::new_ax`: store the positive canonical discriminant. -/
def AxError.new_ax (kind : AxErrorKind) : AxError := ⟨kind.code⟩

/-- `AxError::new_linux`: store the negated Linux discriminant. -/
def AxError.new_linux (kind : LinuxError) : AxError := ⟨-kind.code⟩

/-- `AxError::new`: dispatch on the decoded view. -/
def AxError.new (data : AxErrorData) : AxError :=
  match data with
  | .Ax kind => AxError.new_ax kind
  | .Linux kind => AxError.new_linux kind

/-- `AxError::data`: branch on the sign and reinterpret the magnitude.
The source transmutes unconditionally and is only defined on values that
came from a constructor; the out-of-range reinterpretations are modelled
as `none` (the checked partial decode the spec asks for). -/
def AxError.data (e : AxError) : Option AxErrorData :=
  if e.code < 0 then
    (LinuxError.ofCode (-e.code)).map AxErrorData.Linux
  else
    (AxErrorKind.ofCode e.code).map AxErrorData.Ax

/-- `From<AxErrorKind> for AxError`. -/
def AxError.fromKind (e : AxErrorKind) : AxError := AxError.new_ax e

/-- `From<LinuxError> for AxError`. -/
def AxError.fromLinux (e : LinuxError) : AxError := AxError.new (.Linux e)

/-- `From<AxError> for LinuxError`: total on decodable values. -/
def LinuxError.fromAxError (e : AxError) : Option LinuxError :=
  (e.data).map fun d =>
    match d with
    | .Ax kind => AxErrorKind.toLinux kind
    | .Linux kind => kind

/-- `TryFrom<AxError> for AxErrorKind`: canonical values succeed, Linux
values go through the reverse table. -/
def AxErrorKind.tryFromAxError (e : AxError) : Option (Except LinuxError AxErrorKind) :=
  (e.data).map fun d =>
    match d with
    | .Ax kind => .ok kind
    | .Linux l => AxErrorKind.tryFromLinux l

/-- `AxError::canonicalize`:
`AxErrorKind::try_from(self).map_or_else(Into::into, Into::into)`. -/
def AxError.canonicalize (e : AxError) : Option AxError :=
  (AxErrorKind.tryFromAxError e).map fun r =>
    match r with
    | .ok k => AxError.fromKind k
    | .error l => AxError.fromLinux l

/-- The smallest `i32` value. -/
def i32Min : Int := -2147483648

/-- The largest `i32` value. -/
def i32Max : Int := 2147483647

/-- Checked `i32` negation: Rust signed negation panics (with debug
assertions, the mode the crate tests build in) when the operand is
`i32::MIN`, the one `i32` whose negation is unrepresentable; the panic
is modelled as `none`. -/
def i32NegChecked (x : Int) : Option Int :=
  if x = i32Min then none else some (-x)

/-- `TryFrom<i32> for AxError`:
`if AxErrorKind::try_from(value).is_ok() || LinuxError::try_from(-value).is_ok()`.
The `||` is short-circuiting, so `-value` is evaluated only when the
canonical check fails; its possible overflow panic is the outer `none`. -/
def AxError.tryFromI32 (value : Int) : Option (Except Int AxError) :=
  if (AxErrorKind.tryFromInt value).isOk then
    some (.ok ⟨value⟩)
  else
    (i32NegChecked value).map fun nv =>
      if (LinuxError.tryFromInt nv).isOk then .ok ⟨value⟩ else .error value

theorem AxErrorKind.code_pos (k : AxErrorKind) : 0 < k.code := by
  cases k <;> decide

theorem AxErrorKind.code_le (k : AxErrorKind) : k.code ≤ 43 := by
  cases k <;> decide

theorem AxErrorKind.ofCode_code (k : AxErrorKind) :
    AxErrorKind.ofCode k.code = some k := by
  cases k <;> rfl

theorem AxErrorKind.ofCode_eq_some (c : Int) (k : AxErrorKind)
    (h : AxErrorKind.ofCode c = some k) : k.code = c := by
  have hp := List.find?_some h
  simpa using hp

theorem AxErrorKind.ofCode_isSome_of_range (c : Int) (h1 : 1 ≤ c)
    (h2 : c ≤ 43) : (AxErrorKind.ofCode c).isSome := by
  interval_cases c <;> decide

theorem AxErrorKind.count_int : (AxErrorKind.COUNT : Int) = 43 := rfl

theorem AxErrorKind.tryFromInt_isOk (i : Int) :
    (AxErrorKind.tryFromInt i).isOk = true ↔ (0 < i ∧ i ≤ 43) := by
  unfold AxErrorKind.tryFromInt
  rw [AxErrorKind.count_int]
  by_cases hc : 0 < i ∧ i ≤ (43 : Int)
  · rw [if_pos hc]
    have hs := AxErrorKind.ofCode_isSome_of_range i (by omega) (by omega)
    rcases ho : AxErrorKind.ofCode i with _ | k
    · rw [ho] at hs; simp at hs
    · simp [hc, Except.isOk, Except.toBool]
  · rw [if_neg hc]
    simp [hc, Except.isOk, Except.toBool]

theorem LinuxError.one_le_code (l : LinuxError) : 1 ≤ l.code := by
  have h := l.valid
  simp [isValidLinuxCode] at h
  omega

theorem LinuxError.code_le_max (l : LinuxError) : l.code ≤ 133 := by
  have h := l.valid
  simp [isValidLinuxCode] at h
  omega

theorem LinuxError.ext_code {a b : LinuxError} (h : a.code = b.code) :
    a = b := by
  cases a; cases b; cases h; rfl

theorem LinuxError.ofCode_code_eq (l : LinuxError) :
    LinuxError.ofCode l.code = some l := by
  cases l with
  | mk c v =>
    unfold LinuxError.ofCode
    rw [dif_pos v]

theorem LinuxError.tryFromInt_isOk_iff (i : Int) :
    (LinuxError.tryFromInt i).isOk = true ↔ isValidLinuxCode i = true := by
  unfold LinuxError.tryFromInt
  by_cases h : isValidLinuxCode i = true
  · rw [dif_pos h]; simp [h, Except.isOk, Except.toBool]
  · rw [dif_neg h]; simp [h, Except.isOk, Except.toBool]

theorem AxError.data_new_ax (k : AxErrorKind) :
    (AxError.new_ax k).data = some (.Ax k) := by
  have h1 := AxErrorKind.code_pos k
  simp only [AxError.new_ax, AxError.data]
  rw [if_neg (by simpa using by omega : ¬ (AxError.mk k.code).code < 0)]
  show (AxErrorKind.ofCode k.code).map AxErrorData.Ax = _
  rw [AxErrorKind.ofCode_code k]
  rfl

theorem AxError.data_new_linux (l : LinuxError) :
    (AxError.new_linux l).data = some (.Linux l) := by
  have h1 := LinuxError.one_le_code l
  simp only [AxError.new_linux, AxError.data]
  rw [if_pos (by simpa using by omega : (AxError.mk (-l.code)).code < 0)]
  show (LinuxError.ofCode (-(-l.code))).map AxErrorData.Linux = _
  rw [neg_neg, LinuxError.ofCode_code_eq l]
  rfl

theorem AxErrorKind.tryFromLinux_error (l lr : LinuxError)
    (h : AxErrorKind.tryFromLinux l = .error lr) : lr = l := by
  unfold AxErrorKind.tryFromLinux at h
  rcases ht : AxErrorKind.fromLinuxTable l.code with _ | k
  · rw [ht] at h
    injection h with h
    exact h.symm
  · rw [ht] at h
    injection h

theorem AxErrorKind.fromLinuxTable_code (c : Int) (k : AxErrorKind)
    (h : AxErrorKind.fromLinuxTable c = some k) :
    (AxErrorKind.toLinux k).code = c := by
  unfold AxErrorKind.fromLinuxTable at h
  split at h <;> first
  | (injection h with h; subst h; rfl)
  | (injection h)

theorem AxErrorKind.tryFromLinux_ok (l : LinuxError) (k : AxErrorKind)
    (h : AxErrorKind.tryFromLinux l = .ok k) :
    AxErrorKind.toLinux k = l := by
  unfold AxErrorKind.tryFromLinux at h
  rcases ht : AxErrorKind.fromLinuxTable l.code with _ | k2
  · rw [ht] at h; injection h
  · rw [ht] at h
    injection h with h
    subst h
    exact LinuxError.ext_code (AxErrorKind.fromLinuxTable_code _ _ ht)

theorem AxError.data_of_pos (e : AxError) (h1 : 0 < e.code)
    (h2 : e.code ≤ 43) :
    ∃ k, e.data = some (.Ax k) ∧ AxErrorKind.code k = e.code := by
  have hs := AxErrorKind.ofCode_isSome_of_range e.code (by omega) h2
  rcases ho : AxErrorKind.ofCode e.code with _ | k
  · rw [ho] at hs; simp at hs
  · refine ⟨k, ?_, AxErrorKind.ofCode_eq_some _ _ ho⟩
    unfold AxError.data
    rw [if_neg (by omega), ho]
    rfl

theorem AxError.data_of_neg (e : AxError) (h1 : e.code < 0)
    (h2 : isValidLinuxCode (-e.code) = true) :
    e.data = some (.Linux ⟨-e.code, h2⟩) := by
  unfold AxError.data
  rw [if_pos h1]
  unfold LinuxError.ofCode
  rw [dif_pos h2]
  rfl

/-- A value produced by one of the three public constructions the claim
lists: `From<AxErrorKind>`, `From<LinuxError>`, or a successful
`TryFrom<i32>`. -/
def AxError.Constructible (e : AxError) : Prop :=
  (∃ k, e = AxError.fromKind k) ∨ (∃ l, e = AxError.fromLinux l) ∨
  (∃ i, AxError.tryFromI32 i = some (.ok e))

theorem AxError.constructible_range (e : AxError) (h : e.Constructible) :
    (0 < e.code ∧ e.code ≤ 43) ∨
    (e.code < 0 ∧ isValidLinuxCode (-e.code) = true) := by
  rcases h with ⟨k, rfl⟩ | ⟨l, rfl⟩ | ⟨i, hi⟩
  · exact Or.inl ⟨AxErrorKind.code_pos k, AxErrorKind.code_le k⟩
  · right
    have hl := LinuxError.one_le_code l
    constructor
    · show -l.code < 0
      omega
    · show isValidLinuxCode (-(-l.code)) = true
      rw [neg_neg]
      exact l.valid
  · unfold AxError.tryFromI32 at hi
    by_cases hk : (AxErrorKind.tryFromInt i).isOk = true
    · rw [if_pos hk] at hi
      injection hi with hi
      injection hi with hi
      subst hi
      rw [AxErrorKind.tryFromInt_isOk] at hk
      left
      exact ⟨hk.1, hk.2⟩
    · rw [if_neg hk] at hi
      rcases hn : i32NegChecked i with _ | nv
      · rw [hn] at hi
        simp at hi
      · rw [hn] at hi
        simp only [Option.map_some'] at hi
        injection hi with hi
        by_cases hl : (LinuxError.tryFromInt nv).isOk = true
        · rw [if_pos hl] at hi
          injection hi with hi
          subst hi
          rw [LinuxError.tryFromInt_isOk_iff] at hl
          have hnv : nv = -i := by
            unfold i32NegChecked at hn
            split at hn
            · injection hn
            · injection hn with hn
              exact hn.symm
          subst hnv
          right
          have hge : 1 ≤ -i := by
            simp [isValidLinuxCode] at hl
            omega
          exact ⟨show i < 0 by omega, hl⟩
        · rw [if_neg hl] at hi
          injection hi

/-- C1: a value constructed through `From<AxErrorKind>`, `From<LinuxError>`
or a successful `TryFrom<i32>` has a positive code exactly when it decodes
as a canonical `AxErrorKind`, a negative code exactly when it decodes as a
`LinuxError`, and never has code zero. -/
theorem c1_sign_discriminator (e : AxError) (h : e.Constructible) :
    (0 < e.code ↔ ∃ k, e.data = some (.Ax k)) ∧
    (e.code < 0 ↔ ∃ l, e.data = some (.Linux l)) ∧
    e.code ≠ 0 := by
  rcases AxError.constructible_range e h with ⟨h1, h2⟩ | ⟨h1, h2⟩
  · obtain ⟨k, hk, -⟩ := AxError.data_of_pos e h1 h2
    refine ⟨⟨fun _ => ⟨k, hk⟩, fun _ => h1⟩, ⟨?_, ?_⟩, by omega⟩
    · intro hneg
      exact absurd hneg (by omega)
    · rintro ⟨l, hl⟩
      rw [hk] at hl
      simp at hl
  · have hd := AxError.data_of_neg e h1 h2
    refine ⟨⟨?_, ?_⟩, ⟨fun _ => ⟨_, hd⟩, fun _ => h1⟩, by omega⟩
    · intro hpos
      exact absurd hpos (by omega)
    · rintro ⟨k, hk⟩
      rw [hd] at hk
      simp at hk

/-- Witness for C1 at the concrete value `AxError::from(NotFound)`. -/
theorem c1_sign_discriminator_witness :
    (0 < (AxError.fromKind AxErrorKind.NotFound).code ↔
      ∃ k, (AxError.fromKind AxErrorKind.NotFound).data = some (.Ax k)) ∧
    ((AxError.fromKind AxErrorKind.NotFound).code < 0 ↔
      ∃ l, (AxError.fromKind AxErrorKind.NotFound).data = some (.Linux l)) ∧
    (AxError.fromKind AxErrorKind.NotFound).code ≠ 0 :=
  c1_sign_discriminator _ (Or.inl ⟨AxErrorKind.NotFound, rfl⟩)

theorem isValidLinuxCode_bounds (c : Int) (h : isValidLinuxCode c = true) :
    1 ≤ c ∧ c ≤ 133 := by
  simp [isValidLinuxCode] at h
  omega

theorem AxError.tryFromI32_min : AxError.tryFromI32 i32Min = none := rfl

theorem AxError.tryFromI32_spec (i : Int) (hne : i ≠ i32Min) :
    AxError.tryFromI32 i =
      if (0 < i ∧ i ≤ 43) ∨ isValidLinuxCode (-i) = true
      then some (.ok ⟨i⟩) else some (.error i) := by
  unfold AxError.tryFromI32
  by_cases hk : (AxErrorKind.tryFromInt i).isOk = true
  · rw [if_pos hk, if_pos (Or.inl ((AxErrorKind.tryFromInt_isOk i).mp hk))]
  · rw [if_neg hk]
    unfold i32NegChecked
    rw [if_neg hne]
    simp only [Option.map_some']
    have hk2 : ¬(0 < i ∧ i ≤ 43) :=
      fun hc => hk ((AxErrorKind.tryFromInt_isOk i).mpr hc)
    by_cases hl : (LinuxError.tryFromInt (-i)).isOk = true
    · rw [if_pos hl, if_pos (Or.inr ((LinuxError.tryFromInt_isOk_iff _).mp hl))]
    · rw [if_neg hl, if_neg ?_]
      rintro (hc | hc)
      · exact hk2 hc
      · exact hl ((LinuxError.tryFromInt_isOk_iff _).mpr hc)

/-- C2: `TryFrom<i32> for AxError` succeeds exactly when the input lies in
`1..=43` or its negation is a valid Linux errno; 43 succeeds and decodes
to the last variant `WriteZero`; 44, 0 and `i32::MAX` fail; and a failure
returns the rejected input unchanged. -/
theorem c2_try_from_i32 (i : Int) (hlo : i32Min ≤ i) (hhi : i ≤ i32Max) :
    ((∃ e, AxError.tryFromI32 i = some (.ok e)) ↔
      ((1 ≤ i ∧ i ≤ 43) ∨ isValidLinuxCode (-i) = true)) ∧
    (∀ x, AxError.tryFromI32 i = some (.error x) → x = i) ∧
    AxError.tryFromI32 43 = some (.ok (AxError.fromKind AxErrorKind.WriteZero)) ∧
    AxError.tryFromI32 44 = some (.error 44) ∧
    AxError.tryFromI32 0 = some (.error 0) ∧
    AxError.tryFromI32 i32Max = some (.error i32Max) := by
  refine ⟨⟨?_, ?_⟩, ?_, rfl, rfl, rfl, rfl⟩
  · rintro ⟨e, he⟩
    by_cases hmin : i = i32Min
    · subst hmin
      rw [AxError.tryFromI32_min] at he
      cases he
    · rw [AxError.tryFromI32_spec i hmin] at he
      by_cases hc : (0 < i ∧ i ≤ 43) ∨ isValidLinuxCode (-i) = true
      · rcases hc with hc | hc
        · exact Or.inl ⟨by omega, hc.2⟩
        · exact Or.inr hc
      · rw [if_neg hc] at he
        simp at he
  · intro hc
    have hmin : i ≠ i32Min := by
      rcases hc with hc | hc
      · unfold i32Min
        omega
      · have := isValidLinuxCode_bounds _ hc
        unfold i32Min
        omega
    rw [AxError.tryFromI32_spec i hmin, if_pos (by
      rcases hc with hc | hc
      · exact Or.inl ⟨by omega, hc.2⟩
      · exact Or.inr hc)]
    exact ⟨_, rfl⟩
  · intro x hx
    by_cases hmin : i = i32Min
    · subst hmin
      rw [AxError.tryFromI32_min] at hx
      cases hx
    · rw [AxError.tryFromI32_spec i hmin] at hx
      by_cases hc : (0 < i ∧ i ≤ 43) ∨ isValidLinuxCode (-i) = true
      · rw [if_pos hc] at hx
        simp at hx
      · rw [if_neg hc] at hx
        injection hx with hx
        injection hx with hx
        exact hx.symm

/-- Witness for C2 at the concrete input 0. -/
theorem c2_try_from_i32_witness :
    ((∃ e, AxError.tryFromI32 0 = some (.ok e)) ↔
      ((1 ≤ (0 : Int) ∧ (0 : Int) ≤ 43) ∨ isValidLinuxCode (-0) = true)) ∧
    (∀ x, AxError.tryFromI32 0 = some (.error x) → x = 0) ∧
    AxError.tryFromI32 43 = some (.ok (AxError.fromKind AxErrorKind.WriteZero)) ∧
    AxError.tryFromI32 44 = some (.error 44) ∧
    AxError.tryFromI32 0 = some (.error 0) ∧
    AxError.tryFromI32 i32Max = some (.error i32Max) :=
  c2_try_from_i32 0 (by decide) (by decide)

theorem LinuxError.fromAxError_fromLinux (l : LinuxError) :
    LinuxError.fromAxError (AxError.fromLinux l) = some l := by
  unfold LinuxError.fromAxError
  rw [show (AxError.fromLinux l).data = some (.Linux l) from
    AxError.data_new_linux l]
  rfl

theorem LinuxError.fromAxError_fromKind (k : AxErrorKind) :
    LinuxError.fromAxError (AxError.fromKind k) =
      some (AxErrorKind.toLinux k) := by
  unfold LinuxError.fromAxError
  rw [show (AxError.fromKind k).data = some (.Ax k) from AxError.data_new_ax k]
  rfl

theorem AxErrorKind.tryFromAxError_fromLinux (l : LinuxError) :
    AxErrorKind.tryFromAxError (AxError.fromLinux l) =
      some (AxErrorKind.tryFromLinux l) := by
  unfold AxErrorKind.tryFromAxError
  rw [show (AxError.fromLinux l).data = some (.Linux l) from
    AxError.data_new_linux l]
  rfl

theorem AxErrorKind.tryFromAxError_fromKind (k : AxErrorKind) :
    AxErrorKind.tryFromAxError (AxError.fromKind k) = some (.ok k) := by
  unfold AxErrorKind.tryFromAxError
  rw [show (AxError.fromKind k).data = some (.Ax k) from AxError.data_new_ax k]
  rfl

theorem AxError.canonicalize_fromKind (k : AxErrorKind) :
    AxError.canonicalize (AxError.fromKind k) = some (AxError.fromKind k) := by
  unfold AxError.canonicalize
  rw [AxErrorKind.tryFromAxError_fromKind k]
  rfl

theorem AxError.canonicalize_fromLinux_of_ok (l : LinuxError) (k : AxErrorKind)
    (h : AxErrorKind.tryFromLinux l = .ok k) :
    AxError.canonicalize (AxError.fromLinux l) = some (AxError.fromKind k) := by
  unfold AxError.canonicalize
  rw [AxErrorKind.tryFromAxError_fromLinux l, h]
  rfl

theorem AxError.canonicalize_fromLinux_of_error (l lr : LinuxError)
    (h : AxErrorKind.tryFromLinux l = .error lr) :
    AxError.canonicalize (AxError.fromLinux l) = some (AxError.fromLinux lr) := by
  unfold AxError.canonicalize
  rw [AxErrorKind.tryFromAxError_fromLinux l, h]
  rfl

/-- C3: encoding always succeeds and is by sign: a canonical kind is stored
as its positive code, a Linux errno as the negated code, and the Linux
construction stores the raw Linux value (no implicit canonicalization). -/
theorem c3_encode_by_sign :
    (∀ k : AxErrorKind, (AxError.fromKind k).code = k.code ∧
      0 < (AxError.fromKind k).code) ∧
    (∀ l : LinuxError, (AxError.fromLinux l).code = -l.code ∧
      (AxError.fromLinux l).code < 0 ∧
      (AxError.fromLinux l).data = some (.Linux l)) := by
  constructor
  · intro k
    exact ⟨rfl, AxErrorKind.code_pos k⟩
  · intro l
    have h := LinuxError.one_le_code l
    refine ⟨rfl, ?_, AxError.data_new_linux l⟩
    show -l.code < 0
    omega

/-- C4: conversion to `LinuxError` is total on constructed values: a
Linux-built value round-trips identically, and a kind-built value goes
through the total canonical-to-Linux table. -/
theorem c4_to_linux_total :
    (∀ l : LinuxError,
      LinuxError.fromAxError (AxError.fromLinux l) = some l) ∧
    (∀ k : AxErrorKind,
      LinuxError.fromAxError (AxError.fromKind k) =
        some (AxErrorKind.toLinux k)) :=
  ⟨LinuxError.fromAxError_fromLinux, LinuxError.fromAxError_fromKind⟩

/-- C5: `TryFrom<AxError> for AxErrorKind` is total on decodable values,
returns the stored kind for canonical values, applies the reverse table to
Linux values, and a miss carries the original errno unchanged. -/
theorem c5_try_to_canonical :
    (∀ e : AxError, (e.data).isSome = true →
      (AxErrorKind.tryFromAxError e).isSome = true) ∧
    (∀ k : AxErrorKind,
      AxErrorKind.tryFromAxError (AxError.fromKind k) = some (.ok k)) ∧
    (∀ l : LinuxError,
      AxErrorKind.tryFromAxError (AxError.fromLinux l) =
        some (AxErrorKind.tryFromLinux l)) ∧
    (∀ l lr : LinuxError,
      AxErrorKind.tryFromLinux l = .error lr → lr = l) := by
  refine ⟨?_, AxErrorKind.tryFromAxError_fromKind,
    AxErrorKind.tryFromAxError_fromLinux, AxErrorKind.tryFromLinux_error⟩
  intro e he
  unfold AxErrorKind.tryFromAxError
  rcases hd : e.data with _ | d
  · rw [hd] at he
    simp at he
  · rfl

/-- Witness for C5 at the concrete value `AxError::from(Io)`. -/
theorem c5_try_to_canonical_witness :
    (AxErrorKind.tryFromAxError (AxError.fromKind AxErrorKind.Io)).isSome =
      true :=
  c5_try_to_canonical.1 (AxError.fromKind AxErrorKind.Io) (by decide)

/-- C6: `canonicalize` re-encodes a Linux value as its canonical kind when
the reverse table applies, leaves values unchanged otherwise (canonical
values included), and is idempotent on decodable values. -/
theorem c6_canonicalize :
    (∀ (l : LinuxError) (k : AxErrorKind), AxErrorKind.tryFromLinux l = .ok k →
      AxError.canonicalize (AxError.fromLinux l) =
        some (AxError.fromKind k)) ∧
    (∀ l : LinuxError, AxErrorKind.tryFromLinux l = .error l →
      AxError.canonicalize (AxError.fromLinux l) =
        some (AxError.fromLinux l)) ∧
    (∀ k : AxErrorKind,
      AxError.canonicalize (AxError.fromKind k) =
        some (AxError.fromKind k)) ∧
    (∀ e x : AxError, (e.data).isSome = true →
      AxError.canonicalize e = some x →
      AxError.canonicalize x = some x) := by
  refine ⟨AxError.canonicalize_fromLinux_of_ok,
    fun l h => AxError.canonicalize_fromLinux_of_error l l h,
    AxError.canonicalize_fromKind, ?_⟩
  intro e x he hc
  rcases hd : e.data with _ | d
  · rw [hd] at he
    simp at he
  · rcases d with k | l
    · have h1 : AxError.canonicalize e = some (AxError.fromKind k) := by
        unfold AxError.canonicalize AxErrorKind.tryFromAxError
        rw [hd]
        rfl
      rw [h1] at hc
      injection hc with hc
      subst hc
      exact AxError.canonicalize_fromKind k
    · have h1 : AxErrorKind.tryFromAxError e =
          some (AxErrorKind.tryFromLinux l) := by
        unfold AxErrorKind.tryFromAxError
        rw [hd]
        rfl
      rcases ht : AxErrorKind.tryFromLinux l with lr | k
      · have hlr := AxErrorKind.tryFromLinux_error l lr ht
        rw [hlr] at ht
        have h2 : AxError.canonicalize e = some (AxError.fromLinux l) := by
          unfold AxError.canonicalize
          rw [h1, ht]
          rfl
        rw [h2] at hc
        injection hc with hc
        subst hc
        exact AxError.canonicalize_fromLinux_of_error l l ht
      · have h2 : AxError.canonicalize e = some (AxError.fromKind k) := by
          unfold AxError.canonicalize
          rw [h1, ht]
          rfl
        rw [h2] at hc
        injection hc with hc
        subst hc
        exact AxError.canonicalize_fromKind k

/-- Witness for C6: canonicalizing `AxError::from(EIO)` gives
`AxError::from(Io)`, on which canonicalize is a fixed point. -/
theorem c6_canonicalize_witness :
    AxError.canonicalize (AxError.fromKind AxErrorKind.Io) =
      some (AxError.fromKind AxErrorKind.Io) :=
  c6_canonicalize.2.2.2 (AxError.fromLinux LinuxError.Eio)
    (AxError.fromKind AxErrorKind.Io) (by decide) (by rfl)

/-- C7: whenever the reverse Linux-to-canonical mapping is defined, mapping
the recovered kind back through the canonical-to-Linux table restores the
original errno; hence canonicalization never changes the Linux meaning. -/
theorem c7_reverse_roundtrip :
    (∀ (l : LinuxError) (k : AxErrorKind),
      AxErrorKind.tryFromLinux l = .ok k → AxErrorKind.toLinux k = l) ∧
    (∀ (l : LinuxError) (x : AxError),
      AxError.canonicalize (AxError.fromLinux l) = some x →
      LinuxError.fromAxError x = some l) := by
  refine ⟨AxErrorKind.tryFromLinux_ok, ?_⟩
  intro l x hx
  rcases ht : AxErrorKind.tryFromLinux l with lr | k
  · have hlr := AxErrorKind.tryFromLinux_error l lr ht
    rw [hlr] at ht
    rw [AxError.canonicalize_fromLinux_of_error l l ht] at hx
    injection hx with hx
    subst hx
    exact LinuxError.fromAxError_fromLinux l
  · rw [AxError.canonicalize_fromLinux_of_ok l k ht] at hx
    injection hx with hx
    subst hx
    rw [LinuxError.fromAxError_fromKind k, AxErrorKind.tryFromLinux_ok l k ht]

/-- Witness for C7 at `ENOENT`. -/
theorem c7_reverse_roundtrip_witness :
    AxErrorKind.toLinux AxErrorKind.NotFound = LinuxError.ENOENT :=
  c7_reverse_roundtrip.1 LinuxError.ENOENT AxErrorKind.NotFound (by rfl)

/-- C8: the conversion is a total `Result` for every i32 except that, with
the overflow checks the crate tests build with, `try_from(i32::MIN)`
evaluates `-value`, which overflows `i32` and panics (modelled as `none`);
the neighbouring input is rejected normally with its payload unchanged. -/
theorem c8_try_from_min_panics :
    AxError.tryFromI32 i32Min = none ∧
    AxError.tryFromI32 (i32Min + 1) = some (.error (i32Min + 1)) := by
  exact ⟨rfl, rfl⟩

/-- C9: the `NotFound` scenario: its code is its catalogue position 30, it
converts to `ENOENT`, and `try_from(-2)` decodes as Linux `ENOENT` whose
canonicalization is `Ok(NotFound)`. -/
theorem c9_notfound_scenario :
    (AxError.fromKind AxErrorKind.NotFound).code = 30 ∧
    LinuxError.fromAxError (AxError.fromKind AxErrorKind.NotFound) =
      some LinuxError.ENOENT ∧
    AxError.tryFromI32 (-2) =
      some (.ok (AxError.fromLinux LinuxError.ENOENT)) ∧
    AxErrorKind.tryFromAxError (AxError.fromLinux LinuxError.ENOENT) =
      some (.ok AxErrorKind.NotFound) := by
  exact ⟨rfl, rfl, rfl, rfl⟩

/-- C10: equality of `AxError` is raw-integer equality, so canonical `Io`
and Linux `EIO` are distinct values with the same Linux meaning until
`canonicalize` merges them. -/
theorem c10_distinct_until_canonicalized :
    AxError.fromKind AxErrorKind.Io ≠ AxError.fromLinux LinuxError.Eio ∧
    LinuxError.fromAxError (AxError.fromKind AxErrorKind.Io) =
      some LinuxError.Eio ∧
    LinuxError.fromAxError (AxError.fromLinux LinuxError.Eio) =
      some LinuxError.Eio ∧
    AxError.canonicalize (AxError.fromLinux LinuxError.Eio) =
      some (AxError.fromKind AxErrorKind.Io) := by
  exact ⟨by decide, rfl, rfl, rfl⟩
